import Mathlib

/-!
Verification of the outbound SIP call orchestrator (`sipstuff/sip_caller.py`).

The development shallowly embeds the data model and the operations of the
orchestrator: pure helpers (`WavInfo`, URI building) become Lean functions;
the per-frame silence detector becomes a state-transition function folded
over a list of frames; the event-driven parts of `SipCaller.make_call`
become a deterministic function over an environment (`CallEnv`) that fixes
the outcome of every timed wait and every read of the session's threading
events, together with an explicit trace (`CallTrace`) recording the
observable actions (hangup attempts, playback starts, detector
attach/detach, orphan-store contents, the stored `last_call_result`).

Time stamps and durations are modelled as rationals; handles of native
player/recorder objects are modelled as natural-number tags.
-/

/-- Result record built by `SipCaller.make_call` (class `CallResult`). -/
structure CallResultQ where
  success : Bool
  call_start : ℚ
  call_end : ℚ
  call_duration : ℚ
  answered : Bool
  disconnect_reason : String
deriving DecidableEq, Repr

/-- Metadata extracted from a WAV file on construction (class `WavInfo`).
The `duration` field mirrors
`self.duration = self.n_frames / self.framerate if self.framerate else 0.0`. -/
structure WavInfoQ where
  channels : ℕ
  sample_width : ℕ
  framerate : ℕ
  n_frames : ℕ
  duration : ℚ
deriving DecidableEq, Repr

/-- Constructor of `WavInfo`: stores the four metadata fields read from the
`wave` module and derives the duration. -/
def mkWavInfo (channels sample_width framerate n_frames : ℕ) : WavInfoQ :=
  { channels := channels
    sample_width := sample_width
    framerate := framerate
    n_frames := n_frames
    duration := if framerate ≠ 0 then (n_frames : ℚ) / (framerate : ℚ) else 0 }

/-- The `WavInfo.validate` method: it only produces warning messages and
returns no new record — the metadata is read, never written. -/
def wav_validate (w : WavInfoQ) : List String :=
  (if w.sample_width ≠ 2 then [("WAV sample width is not 16-bit PCM")] else []) ++
    (if w.channels ≠ 1 then [("WAV is not mono")] else []) ++
      (if ¬(w.framerate = 8000 ∨ w.framerate = 16000 ∨ w.framerate = 44100 ∨ w.framerate = 48000)
        then [("WAV sample rate is unusual")] else [])

/-- PJSUA2 invite-session states relevant to `SipCall.onCallState`. -/
inductive InvState
  | null
  | calling
  | incoming
  | early
  | connecting
  | confirmed
  | disconnected
deriving DecidableEq, Repr

/-- The three threading events and the disconnect reason owned by a
`SipCall` session. -/
structure CallEvents where
  connected : Bool
  disconnected : Bool
  media_ready : Bool
  disconnect_reason : String
deriving DecidableEq, Repr

/-- Events of a freshly constructed `SipCall` (all cleared). -/
def initCallEvents : CallEvents :=
  { connected := false, disconnected := false, media_ready := false, disconnect_reason := ("") }

/-- The `SipCall.onCallState` callback: sets `connected_event` on CONFIRMED;
on DISCONNECTED records the reason and sets `disconnected_event` and
`connected_event` (and nothing else). -/
def onCallState (ev : CallEvents) (st : InvState) (lastReason : String) : CallEvents :=
  match st with
  | .confirmed => { ev with connected := true }
  | .disconnected =>
      { ev with disconnect_reason := lastReason, disconnected := true, connected := true }
  | _ => ev

/-- Boolean test that `pre` is a prefix of `s`, mirroring Python
`str.startswith`. -/
def starts_with_str (s pre : String) : Bool :=
  pre.data.isPrefixOf s.data

/-- Boolean test that `pat` occurs contiguously inside `s`. -/
def contains_substr (s pat : String) : Bool :=
  (List.range (s.data.length + 1)).any (fun i => pat.data.isPrefixOf (s.data.drop i))

/-- URI construction of `SipCaller.make_call` (lines 750-760): a destination
that already is a full `sip:`/`sips:` URI is dialed verbatim; otherwise the
URI is built from the configured scheme, server, non-default port and an
explicit `;transport=` parameter. -/
def build_sip_uri (transport server : String) (port : ℕ) (destination : String) : String :=
  let scheme := if transport = ("tls") then ("sips") else ("sip")
  let tp_param := (";transport=") ++ transport
  let default_port : ℕ := if transport = ("tls") then 5061 else 5060
  if starts_with_str destination ("sip:") || starts_with_str destination ("sips:") then
    destination
  else if port ≠ default_port then
    scheme ++ (":") ++ destination ++ ("@") ++ server ++ (":") ++ toString port ++ tp_param
  else
    scheme ++ (":") ++ destination ++ ("@") ++ server ++ tp_param

/-- Media-handle fields of a `SipCall` session: the active player, the
active recorder, and the call's audio media.  Native handles are modelled
as numeric tags. -/
structure SipCallMedia where
  wav_player : Option ℕ
  audio_recorder : Option ℕ
  audio_media : Option ℕ
deriving DecidableEq, Repr

/-- `SipCall.stop_wav`: if a player exists, detach it (best-effort), move it
into the orphan store when one is supplied, and clear the field. -/
def stop_wav (s : SipCallMedia) (orphan_store : Option (List ℕ)) :
    SipCallMedia × Option (List ℕ) :=
  match s.wav_player with
  | none => (s, orphan_store)
  | some p =>
      ({ s with wav_player := none },
        match orphan_store with
        | none => none
        | some l => some (l ++ [p]))

/-- `SipCall.stop_recording`: same deferred-release pattern for the
recorder handle. -/
def stop_recording (s : SipCallMedia) (orphan_store : Option (List ℕ)) :
    SipCallMedia × Option (List ℕ) :=
  match s.audio_recorder with
  | none => (s, orphan_store)
  | some p =>
      ({ s with audio_recorder := none },
        match orphan_store with
        | none => none
        | some l => some (l ++ [p]))

/-- One incoming audio frame: the monotonic-clock instant at which
`onFrameReceived` runs and the decoded 16-bit samples. -/
structure Frame where
  now : ℚ
  samples : List ℤ
deriving DecidableEq, Repr

/-- RMS energy of a frame: `math.isqrt(sum(s*s for s in samples) // len(samples))`. -/
def frame_rms (f : Frame) : ℕ :=
  Nat.sqrt (((f.samples.map (fun s => s * s)).sum).toNat / f.samples.length)

/-- Detector configuration: required silence duration and RMS threshold. -/
structure SDConfig where
  duration : ℚ
  threshold : ℤ
deriving DecidableEq, Repr

/-- Mutable state of a `SilenceDetector`: the one-shot `silence_event`
(`triggered`), the start of the current sub-threshold run, and the
diagnostics buffer with its last flush instant. -/
structure SDState where
  triggered : Bool
  silence_start : Option ℚ
  rms_buf : List ℕ
  last_log : ℚ
deriving DecidableEq, Repr

/-- State of a freshly constructed detector. -/
def sd_init : SDState :=
  { triggered := false, silence_start := none, rms_buf := [], last_log := 0 }

/-- `SilenceDetector._flush_rms_stats`: log and clear the RMS buffer,
remembering the flush instant; a no-op on an empty buffer. -/
def flush_rms_stats (st : SDState) (now : ℚ) : SDState :=
  if st.rms_buf = [] then st else { st with rms_buf := [], last_log := now }

/-- `SilenceDetector.onFrameReceived`: ignore frames once triggered or when
empty; otherwise append the RMS to the buffer, update the silence run
(start it, trigger when it has spanned `duration`, or reset it on loud
audio), then do the periodic diagnostics flush. -/
def onFrameReceived (cfg : SDConfig) (st : SDState) (f : Frame) : SDState :=
  if st.triggered then st
  else if f.samples.length = 0 then st
  else
    let rms := frame_rms f
    let now := f.now
    let st1 := { st with rms_buf := st.rms_buf ++ [rms] }
    let st2 :=
      if (rms : ℤ) < cfg.threshold then
        match st1.silence_start with
        | none => { st1 with silence_start := some now }
        | some t0 =>
            if cfg.duration ≤ now - t0 then
              { flush_rms_stats st1 now with triggered := true }
            else st1
      else { st1 with silence_start := none }
    if (1 : ℚ) / 2 ≤ now - st2.last_log then flush_rms_stats st2 now else st2

/-- Feed a whole sequence of frames to one detector instance. -/
def run_detector (cfg : SDConfig) (fs : List Frame) : SDState :=
  fs.foldl (onFrameReceived cfg) sd_init

/-- A frame is quiet when its RMS is strictly below the threshold. -/
def sub_threshold (cfg : SDConfig) (f : Frame) : Prop :=
  (frame_rms f : ℤ) < cfg.threshold

instance (cfg : SDConfig) (f : Frame) : Decidable (sub_threshold cfg f) := by
  unfold sub_threshold; infer_instance

/-- Environment for one `make_call` invocation: the outcome of every wait
on a threading event and every read of a set-once flag, as produced by the
engine's callback thread.  `disc k` is the value returned by the k-th read
of `disconnected_event` (`is_set` or a timed `wait`); `time k` is the value
of the k-th `time.time()` call; `silence k` is the value of the k-th read
of the detector's `silence_event`. -/
structure CallEnv where
  accountStarted : Bool
  wavOk : Bool
  initiateOk : Bool
  answered : Bool
  mediaReady : Bool
  disc : ℕ → Bool
  discReason : String
  silence : ℕ → Bool
  silenceAttachOk : Bool
  recorderActive : Bool
  time : ℕ → ℚ

/-- Arguments of `make_call` after the `None`-falls-back-to-config
resolution, together with the configured transport data used to build the
URI and the duration of the validated WAV asset. -/
structure CallParams where
  destination : String
  transport : String
  server : String
  port : ℕ
  timeout : ℚ
  pre_delay : ℚ
  post_delay : ℚ
  inter_delay : ℚ
  repeat_count : ℕ
  wait_for_silence : ℚ
  wav_duration : ℚ

/-- Exceptions that escape `make_call` before the guarded region starts:
`SipCallError` for a caller that was not started, an unreadable WAV asset,
or a failed call initiation. -/
inductive SipErr
  | notStarted
  | wavAsset
  | initiateFailed
deriving DecidableEq, Repr

/-- Exit kinds of the bounded silence-wait loop (`make_call` lines
862-868): the detector fired, a disconnect was observed, the bounded
window elapsed — `stuck` marks fuel exhaustion and is proved unreachable
for the fuel `make_call` supplies. -/
inductive SilExit
  | silence
  | disconnected
  | timedOut
  | stuck
deriving DecidableEq, Repr

/-- Outcome of the silence-wait loop: exit kind, elapsed monotonic time in
the loop, the iteration index at exit, and how many reads of
`disconnected_event` the loop consumed. -/
structure SilOut where
  exitKind : SilExit
  elapsed : ℚ
  iters : ℕ
  discUsed : ℕ
deriving DecidableEq, Repr

/-- Observable trace of one `make_call` invocation: counters of event
reads, hangup attempts and playback starts, the session's media handles,
the orphan store, the silence-phase record, and `self.last_call_result`. -/
structure CallTrace where
  last_call_result : Option CallResultQ
  discReads : ℕ
  timeReads : ℕ
  hangups : ℕ
  playWavCalls : ℕ
  dialed_uri : Option String
  call : SipCallMedia
  orphan_store : List ℕ
  detectorAttached : Bool
  detectorDetached : Bool
  silEntered : Bool
  silTimeout : ℚ
  silElapsed : ℚ
  silExit : Option SilExit
  silPostDisc : Option Bool
  stopWavCalled : Bool
  stopRecCalled : Bool
deriving DecidableEq, Repr

/-- Media handles of a freshly created `SipCall`. -/
def initCall : SipCallMedia :=
  { wav_player := none, audio_recorder := none, audio_media := none }

/-- Trace at the top of `make_call`. -/
def initTrace : CallTrace :=
  { last_call_result := none
    discReads := 0
    timeReads := 0
    hangups := 0
    playWavCalls := 0
    dialed_uri := none
    call := initCall
    orphan_store := []
    detectorAttached := false
    detectorDetached := false
    silEntered := false
    silTimeout := 0
    silElapsed := 0
    silExit := none
    silPostDisc := none
    stopWavCalled := false
    stopRecCalled := false }

/-- Value of the next read of `disconnected_event`. -/
def discNow (env : CallEnv) (tr : CallTrace) : Bool :=
  env.disc tr.discReads

/-- Consume one read of `disconnected_event`. -/
def bumpDisc (tr : CallTrace) : CallTrace :=
  { tr with discReads := tr.discReads + 1 }

/-- Value of the next `time.time()` call. -/
def timeNow (env : CallEnv) (tr : CallTrace) : ℚ :=
  env.time tr.timeReads

/-- Consume one `time.time()` call. -/
def bumpTime (tr : CallTrace) : CallTrace :=
  { tr with timeReads := tr.timeReads + 1 }

/-- One best-effort `call.hangup(pj.CallOpParam())` attempt (exceptions
swallowed at every call site). -/
def attemptHangup (tr : CallTrace) : CallTrace :=
  { tr with hangups := tr.hangups + 1 }

/-- Build one `CallResult` record; the duration is always derived as
`call_end - call_start`. -/
def mkResult (success : Bool) (call_start call_end : ℚ) (answered : Bool)
    (reason : String) : CallResultQ :=
  { success := success
    call_start := call_start
    call_end := call_end
    call_duration := call_end - call_start
    answered := answered
    disconnect_reason := reason }

/-- Early-return branch of lines 786-803: the call was not answered in
time or a disconnect was already observed — best-effort hangup when not
disconnected, store a failed `CallResult`, return `False`. -/
def not_answered_return (env : CallEnv) (call_start : ℚ) (tr0 : CallTrace) :
    Except (Bool × CallTrace) CallTrace :=
  let reason := if env.discReason = ("") then ("timeout / no answer") else env.discReason
  let d2 := discNow env tr0
  let tr1 := bumpDisc tr0
  let tr2 := if d2 then tr1 else attemptHangup tr1
  let call_end := timeNow env tr2
  let tr3 := bumpTime tr2
  Except.error (false,
    { tr3 with last_call_result := some (mkResult false call_start call_end false reason) })

/-- Lines 784-805: wait for the answer; `if not answered or
call.disconnected_event.is_set()` (the disconnect read happens only when
`answered` is true, per Python short-circuiting). -/
def phase_answer (env : CallEnv) (call_start : ℚ) (tr0 : CallTrace) :
    Except (Bool × CallTrace) CallTrace :=
  if env.answered then
    let d := discNow env tr0
    let tr1 := bumpDisc tr0
    if d then not_answered_return env call_start tr1 else Except.ok tr1
  else not_answered_return env call_start tr0

/-- Lines 807-823: wait up to 5 s for the media channel; on failure hang
up unconditionally and return a failed, answered result.  On success the
callback thread has published the audio media (and the recorder when a
record path is configured). -/
def phase_media (env : CallEnv) (call_start : ℚ) (tr0 : CallTrace) :
    Except (Bool × CallTrace) CallTrace :=
  if env.mediaReady then
    Except.ok { tr0 with call :=
      { tr0.call with
          audio_media := some 0
          audio_recorder := if env.recorderActive then some 1 else none } }
  else
    let tr1 := attemptHangup tr0
    let call_end := timeNow env tr1
    let tr2 := bumpTime tr1
    Except.error (false,
      { tr2 with last_call_result := some (mkResult false call_start call_end true ("media not ready")) })

/-- Lines 834-848: optional pre-delay; an observed disconnect during the
pre-delay returns `True` with a successful, answered result. -/
def phase_pre_delay (env : CallEnv) (p : CallParams) (call_start : ℚ) (tr0 : CallTrace) :
    Except (Bool × CallTrace) CallTrace :=
  if 0 < p.pre_delay then
    let d := discNow env tr0
    let tr1 := bumpDisc tr0
    if d then
      let call_end := timeNow env tr1
      let tr2 := bumpTime tr1
      Except.error (true,
        { tr2 with last_call_result := some (mkResult true call_start call_end true env.discReason) })
    else Except.ok tr1
  else Except.ok tr0

/-- Fuel bound that `make_call` supplies to the silence-wait loop: one
step per quarter-second tick of the bounded window, plus one. -/
def sil_fuel (tmo : ℚ) : ℕ :=
  (⌈(4 : ℚ) * tmo⌉).toNat + 1

/-- The silence-wait loop of lines 862-868.  Each iteration checks the
detector's `silence_event` and the session's `disconnected_event` (indexes
`n` of `sil` and `dsc`), breaks when the remaining window is exhausted,
and otherwise sleeps `min(remaining, 0.25)` on the silence event — the
timed wait is modelled as running for its full timeout; an early wake only
means the next iteration observes the event set. -/
def silence_wait_loop (sil dsc : ℕ → Bool) (tmo : ℚ) : ℕ → ℚ → ℕ → SilOut
  | 0, e, n => { exitKind := .stuck, elapsed := e, iters := n, discUsed := n }
  | fuel + 1, e, n =>
      if sil n then { exitKind := .silence, elapsed := e, iters := n, discUsed := n }
      else if dsc n then
        { exitKind := .disconnected, elapsed := e, iters := n, discUsed := n + 1 }
      else if tmo - e ≤ 0 then
        { exitKind := .timedOut, elapsed := e, iters := n, discUsed := n + 1 }
      else silence_wait_loop sil dsc tmo fuel (e + min (tmo - e) ((1 : ℚ) / 4)) (n + 1)

/-- The bounded silence window of line 853:
`min(wait_for_silence + 10.0, timeout)`. -/
def sil_window (p : CallParams) : ℚ :=
  min (p.wait_for_silence + 10) p.timeout

/-- The `try` block of lines 856-871: attach the detector, run the bounded
wait loop, detach the detector.  `env.silenceAttachOk` models the block
succeeding; on an exception the failure is logged and the phase falls
through to playback with the incoming trace. -/
def sil_run (env : CallEnv) (p : CallParams) (tr1 : CallTrace) : CallTrace :=
  if env.silenceAttachOk then
    let tr := { tr1 with detectorAttached := true }
    let out := silence_wait_loop env.silence (fun i => env.disc (tr.discReads + i))
      (sil_window p) (sil_fuel (sil_window p)) 0 0
    { tr with
        discReads := tr.discReads + out.discUsed
        silElapsed := out.elapsed
        silExit := some out.exitKind
        detectorDetached := true }
  else tr1

/-- Lines 850-884: when `wait_for_silence > 0` and audio media is
attached, run the detector inside the bounded window (`sil_run`), then
return `True` early when a disconnect is observed afterwards. -/
def phase_silence (env : CallEnv) (p : CallParams) (call_start : ℚ) (tr0 : CallTrace) :
    Except (Bool × CallTrace) CallTrace :=
  if 0 < p.wait_for_silence ∧ tr0.call.audio_media ≠ none then
    let tr1 := { tr0 with silEntered := true, silTimeout := sil_window p }
    let tr2 := sil_run env p tr1
    let d := discNow env tr2
    let tr3 := { bumpDisc tr2 with silPostDisc := some d }
    if d then
      let call_end := timeNow env tr3
      let tr4 := bumpTime tr3
      Except.error (true,
        { tr4 with last_call_result := some (mkResult true call_start call_end true env.discReason) })
    else Except.ok tr3
  else Except.ok tr0

/-- The playback loop of lines 889-918: at most `k` remaining passes,
`i` the current pass index.  Each pass reads `disconnected_event` once as
`is_set`, once as a `wait(duration)`, and — when an inter-delay applies —
once more as a `wait(inter_delay)` between pausing and resuming
transmission. -/
def playbackLoop (env : CallEnv) (p : CallParams) : ℕ → ℕ → CallTrace → CallTrace
  | _, 0, tr => tr
  | i, k + 1, tr0 =>
      let d1 := discNow env tr0
      let tr1 := bumpDisc tr0
      if d1 then tr1
      else
        let d2 := discNow env tr1
        let tr2 := bumpDisc tr1
        if d2 then tr2
        else
          if 0 < p.inter_delay ∧ i < p.repeat_count - 1 then
            let d3 := discNow env tr2
            let tr3 := bumpDisc tr2
            if d3 then tr3 else playbackLoop env p (i + 1) k tr3
          else playbackLoop env p (i + 1) k tr2

/-- Lines 886-922: `call.play_wav()` (the looping player is created and
starts transmitting), the repeat loop, then the inner `finally` that moves
the player and recorder handles into the orphan store. -/
def phase_playback (env : CallEnv) (p : CallParams) (tr0 : CallTrace) : CallTrace :=
  let tr1 := { tr0 with
      playWavCalls := tr0.playWavCalls + 1
      call := { tr0.call with wav_player := some 2 } }
  let tr2 := playbackLoop env p 0 p.repeat_count tr1
  let sw := stop_wav tr2.call (some tr2.orphan_store)
  let tr3 := { tr2 with
      call := sw.1, orphan_store := sw.2.getD tr2.orphan_store, stopWavCalled := true }
  let sr := stop_recording tr3.call (some tr3.orphan_store)
  { tr3 with
      call := sr.1, orphan_store := sr.2.getD tr3.orphan_store, stopRecCalled := true }

/-- Lines 923-936: post-delay (the disconnect read happens first, per
short-circuiting), then the orchestrator-initiated hangup with a 5 s wait
for the disconnect confirmation when still connected. -/
def phase_post_hangup (env : CallEnv) (p : CallParams) (tr0 : CallTrace) : CallTrace :=
  let d := discNow env tr0
  let tr1 := bumpDisc tr0
  let tr2 :=
    if ¬d ∧ 0 < p.post_delay then bumpDisc tr1
    else tr1
  let d2 := discNow env tr2
  let tr3 := bumpDisc tr2
  if d2 then tr3
  else
    let tr4 := attemptHangup tr3
    bumpDisc tr4

/-- Lines 938-947: build the successful `CallResult` and return `True`. -/
def phase_result (env : CallEnv) (call_start : ℚ) (tr0 : CallTrace) : Bool × CallTrace :=
  let call_end := timeNow env tr0
  let tr1 := bumpTime tr0
  (true,
    { tr1 with last_call_result := some (mkResult true call_start call_end true env.discReason) })

/-- Tail of the guarded region once the silence phase falls through:
playback, post-delay and hangup, then the successful result. -/
def after_silence (env : CallEnv) (p : CallParams) (call_start : ℚ) (tr : CallTrace) :
    Bool × CallTrace :=
  phase_result env call_start (phase_post_hangup env p (phase_playback env p tr))

/-- Body of the outer `try` of `make_call` (lines 782-947), phase by
phase; an `Except.error` of a phase is an early `return`. -/
def make_call_try_body (env : CallEnv) (p : CallParams) (call_start : ℚ) (tr : CallTrace) :
    Bool × CallTrace :=
  match phase_answer env call_start tr with
  | .error out => out
  | .ok tr1 =>
    match phase_media env call_start tr1 with
    | .error out => out
    | .ok tr2 =>
      match phase_pre_delay env p call_start tr2 with
      | .error out => out
      | .ok tr3 =>
        match phase_silence env p call_start tr3 with
        | .error out => out
        | .ok tr4 => after_silence env p call_start tr4

/-- The `finally` block of lines 948-957: read `disconnected_event` once
and issue the failsafe hangup when it is not set. -/
def finally_cleanup (env : CallEnv) (tr0 : CallTrace) : CallTrace :=
  let d := discNow env tr0
  let tr1 := bumpDisc tr0
  if d then tr1 else attemptHangup tr1

/-- `SipCaller.make_call` (lines 733-957): reset `last_call_result`, take
`call_start`, fail fast when not started / the WAV asset is unreadable /
the initiation raises, and otherwise run the guarded body with the
failsafe cleanup applied to whatever trace the body exits with. -/
def make_call (env : CallEnv) (p : CallParams) : Except SipErr Bool × CallTrace :=
  let tr0 := initTrace
  let call_start := timeNow env tr0
  let tr1 := bumpTime tr0
  if env.accountStarted = false then (Except.error SipErr.notStarted, tr1)
  else if env.wavOk = false then (Except.error SipErr.wavAsset, tr1)
  else
    let tr2 := { tr1 with
        dialed_uri := some (build_sip_uri p.transport p.server p.port p.destination) }
    if env.initiateOk = false then (Except.error SipErr.initiateFailed, tr2)
    else
      let out := make_call_try_body env p call_start tr2
      (Except.ok out.1, finally_cleanup env out.2)

/-- Trace of a phase outcome regardless of whether the phase returned
early. -/
def phase_out_trace (x : Except (Bool × CallTrace) CallTrace) : CallTrace :=
  match x with
  | .ok t => t
  | .error out => out.2

/-- A list is a `isPrefixOf` itself. -/
theorem list_isPrefixOf_self (l : List Char) : l.isPrefixOf l = true := by
  simp

/-- Concatenating `b` after `a` yields a string that contains `b`. -/
theorem contains_substr_of_append (a b : String) : contains_substr (a ++ b) b = true := by
  unfold contains_substr
  apply List.any_eq_true.mpr
  refine ⟨a.data.length, ?_, ?_⟩
  · apply List.mem_range.mpr
    have hd : (a ++ b).data = a.data ++ b.data := rfl
    rw [hd, List.length_append]
    omega
  · have hd : (a ++ b).data = a.data ++ b.data := rfl
    rw [hd, List.drop_left]
    exact list_isPrefixOf_self b.data

/-- C8: for every WAV asset successfully opened, the derived duration is
`frame_count / sample_rate_hz` for a non-zero rate and `0` for rate `0`,
and the stored metadata fields are exactly the values read at
construction; the only operation on the record, `wav_validate`, consumes
it without producing a modified record. -/
theorem C8_wav_duration (channels sample_width framerate n_frames : ℕ) :
    (framerate ≠ 0 →
      (mkWavInfo channels sample_width framerate n_frames).duration =
        (n_frames : ℚ) / (framerate : ℚ)) ∧
    (framerate = 0 → (mkWavInfo channels sample_width framerate n_frames).duration = 0) ∧
    (mkWavInfo channels sample_width framerate n_frames).channels = channels ∧
    (mkWavInfo channels sample_width framerate n_frames).sample_width = sample_width ∧
    (mkWavInfo channels sample_width framerate n_frames).framerate = framerate ∧
    (mkWavInfo channels sample_width framerate n_frames).n_frames = n_frames := by
  refine ⟨fun h => ?_, fun h => ?_, rfl, rfl, rfl, rfl⟩ <;> simp [mkWavInfo, h]

/-- Witness for C8 at a concrete 2-second 8 kHz asset and at rate 0. -/
theorem C8_wav_duration_witness :
    (mkWavInfo 1 2 8000 16000).duration = 2 ∧ (mkWavInfo 1 2 0 16000).duration = 0 := by
  constructor
  · rw [(C8_wav_duration 1 2 8000 16000).1 (by decide)]
    norm_num
  · exact (C8_wav_duration 1 2 0 16000).2.1 rfl

/-- C2 counterexample: the disconnect callback on a fresh session sets the
disconnected and connected events but leaves the media-ready event clear,
so a thread in `wait_media_ready` can still block for its full timeout —
the claim that both the connected and media-ready events are set after
the disconnect callback is false. -/
theorem C2_disconnect_media_event_counterexample :
    (onCallState initCallEvents InvState.disconnected ("rejected")).connected = true ∧
    (onCallState initCallEvents InvState.disconnected ("rejected")).disconnected = true ∧
    (onCallState initCallEvents InvState.disconnected ("rejected")).media_ready = false :=
  ⟨rfl, rfl, rfl⟩

/-- C2 amended: every transition into Disconnected records the reason and
sets the disconnected and connected events — unblocking any thread
waiting on "reached Confirmed" — but does not touch the media-ready
event, so a thread waiting on "reached MediaReady" is not unblocked by a
disconnect (that wait is separately bounded at 5 s in `make_call`). -/
theorem C2_disconnect_unblocks_amended (ev : CallEvents) (reason : String) :
    onCallState ev InvState.disconnected reason =
      { ev with connected := true, disconnected := true, disconnect_reason := reason } := rfl

/-- C6 counterexample: a destination that is already a full `sip:` URI is
dialed verbatim, and when it carries no transport parameter the dialed URI
contains no `;transport=` parameter at all — the claim that every dialed
URI carries an explicit transport parameter is false. -/
theorem C6_uri_transport_counterexample :
    build_sip_uri ("udp") ("pbx.example.com") 5060 ("sip:bob@example.com") =
      ("sip:bob@example.com") ∧
    contains_substr (build_sip_uri ("udp") ("pbx.example.com") 5060 ("sip:bob@example.com"))
      ((";transport=") ++ ("udp")) = false := by
  exact ⟨rfl, by decide⟩

/-- C6 amended: for every destination that is not already a full
`sip:`/`sips:` URI, the dialed URI contains an explicit `;transport=`
parameter naming the configured transport (on both the default-port and
non-default-port branches); a destination that already is a full URI is
dialed verbatim. -/
theorem C6_uri_transport_param_amended (transport server : String) (port : ℕ)
    (destination : String)
    (h1 : starts_with_str destination ("sip:") = false)
    (h2 : starts_with_str destination ("sips:") = false) :
    contains_substr (build_sip_uri transport server port destination)
      ((";transport=") ++ transport) = true := by
  unfold build_sip_uri
  rw [h1, h2]
  simp only [Bool.or_self, Bool.false_eq_true, if_false]
  split <;> split <;> exact contains_substr_of_append _ _

/-- Witness for C6 amended: a bare phone-number destination on the
default port. -/
theorem C6_uri_transport_param_amended_witness :
    contains_substr (build_sip_uri ("udp") ("pbx.example.com") 5060 ("+491234567890"))
      ((";transport=") ++ ("udp")) = true :=
  C6_uri_transport_param_amended ("udp") ("pbx.example.com") 5060 ("+491234567890")
    (by decide) (by decide)

/-- C9: with an orphan store supplied, `stop_wav` clears the player field
and appends the detached handle to the store exactly once, `stop_recording`
does the same for the recorder handle, and running either a second time
leaves both the session and the store unchanged. -/
theorem C9_stop_idempotent_orphans (s : SipCallMedia) (l : List ℕ) :
    ((stop_wav s (some l)).1.wav_player = none) ∧
    (stop_wav (stop_wav s (some l)).1 (stop_wav s (some l)).2 = stop_wav s (some l)) ∧
    ((stop_wav s (some l)).2 = some l ∧ s.wav_player = none ∨
      ∃ p, s.wav_player = some p ∧ (stop_wav s (some l)).2 = some (l ++ [p])) ∧
    ((stop_recording s (some l)).1.audio_recorder = none) ∧
    (stop_recording (stop_recording s (some l)).1 (stop_recording s (some l)).2 =
      stop_recording s (some l)) ∧
    ((stop_recording s (some l)).2 = some l ∧ s.audio_recorder = none ∨
      ∃ p, s.audio_recorder = some p ∧ (stop_recording s (some l)).2 = some (l ++ [p])) := by
  obtain ⟨wp, ar, am⟩ := s
  cases wp <;> cases ar <;> simp [stop_wav, stop_recording]

/-- The diagnostics flush changes neither the trigger flag nor the run
start. -/
@[simp] theorem flush_rms_stats_triggered (st : SDState) (now : ℚ) :
    (flush_rms_stats st now).triggered = st.triggered := by
  unfold flush_rms_stats; split <;> rfl

/-- The diagnostics flush leaves `silence_start` unchanged. -/
@[simp] theorem flush_rms_stats_silence_start (st : SDState) (now : ℚ) :
    (flush_rms_stats st now).silence_start = st.silence_start := by
  unfold flush_rms_stats; split <;> rfl

/-- Invariant of the detector relative to the frames already processed:
when not triggered, a set run start `t0` is the arrival instant of a
non-empty quiet frame after which every later non-empty frame was also
quiet. -/
def silence_run_inv (cfg : SDConfig) (fs : List Frame) (st : SDState) : Prop :=
  st.triggered = false → ∀ t0, st.silence_start = some t0 →
    ∃ pre b mid, fs = pre ++ b :: mid ∧ b.samples ≠ [] ∧ sub_threshold cfg b ∧ b.now = t0 ∧
      ∀ g ∈ mid, g.samples ≠ [] → sub_threshold cfg g


/-- Frames are ignored once the one-shot event is set. -/
theorem onFrameReceived_triggered_ignore (cfg : SDConfig) (st : SDState) (f : Frame)
    (hT : st.triggered = true) : onFrameReceived cfg st f = st := by
  unfold onFrameReceived
  rw [if_pos hT]

/-- Joint characterization of the trigger flag and the run start produced
by one non-ignored, non-empty frame. -/
theorem onFrameReceived_proj (cfg : SDConfig) (st : SDState) (f : Frame)
    (hT : st.triggered = false) (hlen : ¬f.samples.length = 0) :
    ((onFrameReceived cfg st f).triggered, (onFrameReceived cfg st f).silence_start) =
      (if (frame_rms f : ℤ) < cfg.threshold then
        match st.silence_start with
        | none => (false, some f.now)
        | some t1 =>
            if cfg.duration ≤ f.now - t1 then (true, some t1) else (false, some t1)
      else (false, none)) := by
  unfold onFrameReceived
  rw [if_neg (by simp [hT]), if_neg hlen]
  dsimp only
  split
  · cases hss : st.silence_start with
    | none =>
        simp only [hss]
        split <;> simp [hT]
    | some t1 =>
        simp only [hss]
        split
        · split <;> simp
        · split <;> simp [hT, hss]
  · split <;> simp [hT]

/-- Processing one more frame preserves the run invariant. -/
theorem silence_run_inv_step (cfg : SDConfig) (fs : List Frame) (st : SDState) (f : Frame)
    (h : silence_run_inv cfg fs st) :
    silence_run_inv cfg (fs ++ [f]) (onFrameReceived cfg st f) := by
  intro htrig t0 hss
  by_cases hT : st.triggered = true
  · rw [onFrameReceived_triggered_ignore cfg st f hT] at htrig
    rw [htrig] at hT
    exact absurd hT (by simp)
  · replace hT : st.triggered = false := by simpa using hT
    by_cases hlen : f.samples.length = 0
    · have hre : onFrameReceived cfg st f = st := by
        unfold onFrameReceived
        rw [if_neg (by simp [hT]), if_pos hlen]
      rw [hre] at htrig hss
      obtain ⟨pre, b, mid, hfs, hb1, hb2, hb3, hmid⟩ := h htrig t0 hss
      refine ⟨pre, b, mid ++ [f], by simp [hfs], hb1, hb2, hb3, fun g hg hgs => ?_⟩
      rcases List.mem_append.mp hg with hg | hg
      · exact hmid g hg hgs
      · simp only [List.mem_singleton] at hg
        subst hg
        exact absurd (List.length_eq_zero.mp hlen) hgs
    · have hp := onFrameReceived_proj cfg st f hT hlen
      by_cases hrms : (frame_rms f : ℤ) < cfg.threshold
      · rw [if_pos hrms] at hp
        cases hss0 : st.silence_start with
        | none =>
            rw [hss0] at hp
            simp only at hp
            rw [Prod.mk.injEq] at hp
            rw [hp.2] at hss
            have ht0 : t0 = f.now := ((Option.some.injEq _ _).mp hss).symm
            subst ht0
            exact ⟨fs, f, [], rfl, fun hc => hlen (by simp [hc]), hrms, rfl, by simp⟩
        | some t1 =>
            rw [hss0] at hp
            simp only at hp
            by_cases hdur : cfg.duration ≤ f.now - t1
            · rw [if_pos hdur, Prod.mk.injEq] at hp
              rw [hp.1] at htrig
              exact absurd htrig (by simp)
            · rw [if_neg hdur, Prod.mk.injEq] at hp
              rw [hp.2] at hss
              have ht01 : t0 = t1 := by simpa using hss.symm
              subst ht01
              obtain ⟨pre, b, mid, hfs, hb1, hb2, hb3, hmid⟩ := h hT t0 hss0
              refine ⟨pre, b, mid ++ [f], by simp [hfs], hb1, hb2, hb3, fun g hg hgs => ?_⟩
              rcases List.mem_append.mp hg with hg | hg
              · exact hmid g hg hgs
              · simp only [List.mem_singleton] at hg
                subst hg
                exact hrms
      · rw [if_neg hrms, Prod.mk.injEq] at hp
        rw [hp.2] at hss
        exact absurd hss (by simp)

/-- The run invariant holds for every processed frame sequence. -/
theorem run_detector_inv (cfg : SDConfig) (fs : List Frame) :
    silence_run_inv cfg fs (run_detector cfg fs) := by
  induction fs using List.reverseRecOn with
  | nil =>
      intro _ t0 h
      simp [run_detector, sd_init] at h
  | append_singleton l a ih =>
      have hrw : run_detector cfg (l ++ [a]) = onFrameReceived cfg (run_detector cfg l) a := by
        simp [run_detector, List.foldl_append]
      rw [hrw]
      exact silence_run_inv_step cfg l (run_detector cfg l) a ih

/-- C4: the detector's `triggered` flag is one-shot — once set, every later
frame is ignored (so it is never reset and transitions false-to-true at
most once) — and a false-to-true transition happens only on a non-empty
frame whose RMS is below the threshold, at the end of an uninterrupted
sub-threshold run (started by a quiet frame `b`, with every intervening
non-empty frame quiet) spanning at least `duration`. -/
theorem C4_silence_trigger_one_shot :
    (∀ (cfg : SDConfig) (st : SDState) (f : Frame), st.triggered = true →
      onFrameReceived cfg st f = st) ∧
    (∀ (cfg : SDConfig) (fs : List Frame) (f : Frame),
      (run_detector cfg fs).triggered = false →
      (onFrameReceived cfg (run_detector cfg fs) f).triggered = true →
      f.samples ≠ [] ∧ sub_threshold cfg f ∧
        ∃ pre b mid, fs = pre ++ b :: mid ∧ b.samples ≠ [] ∧ sub_threshold cfg b ∧
          cfg.duration ≤ f.now - b.now ∧
          ∀ g ∈ mid, g.samples ≠ [] → sub_threshold cfg g) := by
  constructor
  · exact fun cfg st f h => onFrameReceived_triggered_ignore cfg st f h
  · intro cfg fs f hT htrig
    by_cases hlen : f.samples.length = 0
    · have hre : onFrameReceived cfg (run_detector cfg fs) f = run_detector cfg fs := by
        unfold onFrameReceived
        rw [if_neg (by simp [hT]), if_pos hlen]
      rw [hre, hT] at htrig
      exact absurd htrig (by simp)
    · have hp := onFrameReceived_proj cfg (run_detector cfg fs) f hT hlen
      by_cases hrms : (frame_rms f : ℤ) < cfg.threshold
      · rw [if_pos hrms] at hp
        cases hss0 : (run_detector cfg fs).silence_start with
        | none =>
            rw [hss0] at hp
            simp only [Prod.mk.injEq] at hp
            rw [hp.1] at htrig
            exact absurd htrig (by simp)
        | some t1 =>
            rw [hss0] at hp
            simp only at hp
            by_cases hdur : cfg.duration ≤ f.now - t1
            · obtain ⟨pre, b, mid, hfs, hb1, hb2, hb3, hmid⟩ :=
                run_detector_inv cfg fs hT t1 hss0
              refine ⟨fun hc => hlen (by simp [hc]), hrms, pre, b, mid, hfs, hb1, hb2, ?_, hmid⟩
              rw [hb3]
              exact hdur
            · rw [if_neg hdur, Prod.mk.injEq] at hp
              rw [hp.1] at htrig
              exact absurd htrig (by simp)
      · rw [if_neg hrms, Prod.mk.injEq] at hp
        rw [hp.1] at htrig
        exact absurd htrig (by simp)

/-- Detector configuration used by the C4 witness. -/
def sd_cfg0 : SDConfig := { duration := 1, threshold := 200 }

/-- One quiet frame at instant 0 for the C4 witness. -/
def sd_fs0 : List Frame := [{ now := 0, samples := [0] }]

/-- One quiet frame at instant 1 for the C4 witness. -/
def sd_f0 : Frame := { now := 1, samples := [0] }

/-- Witness for C4: after a quiet frame at 0, a quiet frame at 1 fires the
trigger, and the theorem yields that the firing frame is quiet. -/
theorem C4_silence_trigger_one_shot_witness :
    (run_detector sd_cfg0 sd_fs0).triggered = false ∧
    (onFrameReceived sd_cfg0 (run_detector sd_cfg0 sd_fs0) sd_f0).triggered = true ∧
    sub_threshold sd_cfg0 sd_f0 := by
  have h1 : run_detector sd_cfg0 sd_fs0 =
      { triggered := false, silence_start := some 0, rms_buf := [0], last_log := 0 } := by
    norm_num [run_detector, onFrameReceived, frame_rms, sd_init, flush_rms_stats,
      sd_cfg0, sd_fs0]
  have h2 : (onFrameReceived sd_cfg0 (run_detector sd_cfg0 sd_fs0) sd_f0).triggered = true := by
    rw [h1]
    norm_num [onFrameReceived, frame_rms, flush_rms_stats, sd_cfg0, sd_f0]
    split_ifs <;> rfl
  refine ⟨by rw [h1], h2, ?_⟩
  exact (C4_silence_trigger_one_shot.2 sd_cfg0 sd_fs0 sd_f0 (by rw [h1]) h2).2.1

/-- The silence-wait loop never reports an elapsed time beyond the bounded
window. -/
theorem silence_wait_loop_elapsed_le (sil dsc : ℕ → Bool) (tmo : ℚ) :
    ∀ (fuel : ℕ) (e : ℚ) (n : ℕ), e ≤ tmo →
      (silence_wait_loop sil dsc tmo fuel e n).elapsed ≤ tmo := by
  intro fuel
  induction fuel with
  | zero =>
      intro e n h
      simpa [silence_wait_loop] using h
  | succ k ih =>
      intro e n h
      unfold silence_wait_loop
      by_cases h1 : sil n = true
      · simpa [h1] using h
      · by_cases h2 : dsc n = true
        · simpa [h1, h2] using h
        · by_cases h3 : tmo - e ≤ 0
          · simpa [h1, h2, h3] using h
          · simp only [h1, h2, h3, Bool.false_eq_true, if_false]
            apply ih
            have hm : min (tmo - e) ((1 : ℚ) / 4) ≤ tmo - e := min_le_left _ _
            linarith

/-- With the fuel `make_call` supplies, the silence-wait loop always
reaches one of its three genuine exits — it never runs out of fuel, hence
never blocks beyond the bounded window. -/
theorem silence_wait_loop_no_stuck (sil dsc : ℕ → Bool) (tmo : ℚ) :
    ∀ (fuel : ℕ) (e : ℚ) (n : ℕ), (⌈(4 : ℚ) * (tmo - e)⌉).toNat < fuel →
      (silence_wait_loop sil dsc tmo fuel e n).exitKind ≠ SilExit.stuck := by
  intro fuel
  induction fuel with
  | zero =>
      intro e n h
      omega
  | succ k ih =>
      intro e n h
      unfold silence_wait_loop
      by_cases h1 : sil n = true
      · simp [h1]
      · by_cases h2 : dsc n = true
        · simp [h1, h2]
        · by_cases h3 : tmo - e ≤ 0
          · simp [h1, h2, h3]
          · simp only [h1, h2, h3, Bool.false_eq_true, if_false]
            apply ih
            have hr : 0 < tmo - e := lt_of_not_ge h3
            by_cases hq : tmo - e ≤ (1 : ℚ) / 4
            · have hmin : min (tmo - e) ((1 : ℚ) / 4) = tmo - e := min_eq_left hq
              have hz : tmo - (e + min (tmo - e) ((1 : ℚ) / 4)) = 0 := by
                rw [hmin]; ring
              rw [hz]
              have hpos : 0 < ⌈(4 : ℚ) * (tmo - e)⌉ := by
                apply Int.ceil_pos.mpr
                positivity
              have : (0 : ℤ) < ⌈(4 : ℚ) * (tmo - e)⌉ := hpos
              simp only [mul_zero, Int.ceil_zero, Int.toNat_zero]
              omega
            · have hq4 : (1 : ℚ) / 4 < tmo - e := lt_of_not_ge hq
              have hmin : min (tmo - e) ((1 : ℚ) / 4) = (1 : ℚ) / 4 := min_eq_right (le_of_lt hq4)
              have h4 : (4 : ℚ) * (tmo - (e + min (tmo - e) ((1 : ℚ) / 4))) =
                  (4 : ℚ) * (tmo - e) - 1 := by
                rw [hmin]; ring
              rw [h4, Int.ceil_sub_one]
              have h2lt : (1 : ℤ) < ⌈(4 : ℚ) * (tmo - e)⌉ := by
                apply Int.lt_ceil.mpr
                push_cast
                linarith
              omega

/-- Exit-kind soundness and minimality of the silence-wait loop: the
reported exit reflects the event values at the exit iteration, and no
earlier iteration saw either event set. -/
theorem silence_wait_loop_exit_spec (sil dsc : ℕ → Bool) (tmo : ℚ) :
    ∀ (fuel : ℕ) (e : ℚ) (n : ℕ),
      ((silence_wait_loop sil dsc tmo fuel e n).exitKind = SilExit.silence →
        sil (silence_wait_loop sil dsc tmo fuel e n).iters = true) ∧
      ((silence_wait_loop sil dsc tmo fuel e n).exitKind = SilExit.disconnected →
        sil (silence_wait_loop sil dsc tmo fuel e n).iters = false ∧
        dsc (silence_wait_loop sil dsc tmo fuel e n).iters = true) ∧
      ((silence_wait_loop sil dsc tmo fuel e n).exitKind = SilExit.timedOut →
        sil (silence_wait_loop sil dsc tmo fuel e n).iters = false ∧
        dsc (silence_wait_loop sil dsc tmo fuel e n).iters = false ∧
        tmo - (silence_wait_loop sil dsc tmo fuel e n).elapsed ≤ 0) ∧
      (∀ m, n ≤ m → m < (silence_wait_loop sil dsc tmo fuel e n).iters →
        sil m = false ∧ dsc m = false) := by
  intro fuel
  induction fuel with
  | zero =>
      intro e n
      refine ⟨?_, ?_, ?_, ?_⟩ <;> simp [silence_wait_loop]
      intro m hnm hm
      omega
  | succ k ih =>
      intro e n
      unfold silence_wait_loop
      by_cases h1 : sil n = true
      · refine ⟨?_, ?_, ?_, ?_⟩ <;> simp [h1]
        intro m hnm hm
        omega
      · by_cases h2 : dsc n = true
        · refine ⟨?_, ?_, ?_, ?_⟩ <;> simp [h1, h2]
          intro m hnm hm
          omega
        · by_cases h3 : tmo - e ≤ 0
          · refine ⟨?_, ?_, ?_, ?_⟩ <;> simp [h1, h2, h3]
            · intro m hnm hm
              omega
          · simp only [h1, h2, h3, Bool.false_eq_true, if_false]
            obtain ⟨ihs, ihd, iht, ihm⟩ := ih (e + min (tmo - e) ((1 : ℚ) / 4)) (n + 1)
            refine ⟨ihs, ihd, iht, ?_⟩
            intro m hnm hm
            rcases Nat.eq_or_lt_of_le hnm with hEq | hlt
            · subst hEq
              exact ⟨by simpa using h1, by simpa using h2⟩
            · exact ihm m hlt hm

/-- Consuming a disconnect read leaves every other trace field unchanged. -/
@[simp] theorem bumpDisc_playWavCalls (tr : CallTrace) :
    (bumpDisc tr).playWavCalls = tr.playWavCalls := rfl

/-- Consuming a disconnect read leaves the stored result unchanged. -/
@[simp] theorem bumpDisc_last_call_result (tr : CallTrace) :
    (bumpDisc tr).last_call_result = tr.last_call_result := rfl

/-- Consuming a disconnect read leaves the hangup count unchanged. -/
@[simp] theorem bumpDisc_hangups (tr : CallTrace) : (bumpDisc tr).hangups = tr.hangups := rfl

/-- Consuming a disconnect read increments the read counter. -/
@[simp] theorem bumpDisc_discReads (tr : CallTrace) :
    (bumpDisc tr).discReads = tr.discReads + 1 := rfl

/-- Consuming a clock read leaves the playback counter unchanged. -/
@[simp] theorem bumpTime_playWavCalls (tr : CallTrace) :
    (bumpTime tr).playWavCalls = tr.playWavCalls := rfl

/-- Consuming a clock read leaves the stored result unchanged. -/
@[simp] theorem bumpTime_last_call_result (tr : CallTrace) :
    (bumpTime tr).last_call_result = tr.last_call_result := rfl

/-- Consuming a clock read leaves the hangup count unchanged. -/
@[simp] theorem bumpTime_hangups (tr : CallTrace) : (bumpTime tr).hangups = tr.hangups := rfl

/-- A hangup attempt leaves the playback counter unchanged. -/
@[simp] theorem attemptHangup_playWavCalls (tr : CallTrace) :
    (attemptHangup tr).playWavCalls = tr.playWavCalls := rfl

/-- A hangup attempt leaves the stored result unchanged. -/
@[simp] theorem attemptHangup_last_call_result (tr : CallTrace) :
    (attemptHangup tr).last_call_result = tr.last_call_result := rfl

/-- A hangup attempt increments the hangup count. -/
@[simp] theorem attemptHangup_hangups (tr : CallTrace) :
    (attemptHangup tr).hangups = tr.hangups + 1 := rfl

/-- The playback loop only consumes disconnect reads: it changes neither
the playback counter nor the stored result nor the hangup count. -/
theorem playbackLoop_preserves (env : CallEnv) (p : CallParams) :
    ∀ (k i : ℕ) (tr : CallTrace),
      (playbackLoop env p i k tr).playWavCalls = tr.playWavCalls ∧
      (playbackLoop env p i k tr).last_call_result = tr.last_call_result ∧
      (playbackLoop env p i k tr).hangups = tr.hangups := by
  intro k
  induction k with
  | zero =>
      intro i tr
      exact ⟨rfl, rfl, rfl⟩
  | succ m ih =>
      intro i tr
      unfold playbackLoop
      by_cases h1 : discNow env tr = true
      · simp only [h1, if_true]
        exact ⟨rfl, rfl, rfl⟩
      · simp only [h1, Bool.false_eq_true, if_false]
        by_cases h2 : discNow env (bumpDisc tr) = true
        · simp only [h2, if_true]
          exact ⟨rfl, rfl, rfl⟩
        · simp only [h2, Bool.false_eq_true, if_false]
          by_cases h3 : 0 < p.inter_delay ∧ i < p.repeat_count - 1
          · simp only [h3, if_true]
            by_cases h4 : discNow env (bumpDisc (bumpDisc tr)) = true
            · simp only [h4, if_true]
              exact ⟨rfl, rfl, rfl⟩
            · simp only [h4, Bool.false_eq_true, if_false]
              simpa using ih (i + 1) (bumpDisc (bumpDisc (bumpDisc tr)))
          · simp only [h3, if_false]
            simpa using ih (i + 1) (bumpDisc (bumpDisc tr))

/-- The post-delay/hangup phase preserves the playback counter and the
stored result. -/
theorem phase_post_hangup_preserves (env : CallEnv) (p : CallParams) (tr : CallTrace) :
    (phase_post_hangup env p tr).playWavCalls = tr.playWavCalls ∧
    (phase_post_hangup env p tr).last_call_result = tr.last_call_result := by
  unfold phase_post_hangup
  dsimp only
  split <;> split <;> simp

/-- The playback phase starts playback exactly once and leaves the stored
result alone. -/
theorem phase_playback_spec (env : CallEnv) (p : CallParams) (tr : CallTrace) :
    (phase_playback env p tr).playWavCalls = tr.playWavCalls + 1 ∧
    (phase_playback env p tr).last_call_result = tr.last_call_result := by
  unfold phase_playback
  dsimp only
  obtain ⟨h1, h2, h3⟩ := playbackLoop_preserves env p p.repeat_count 0
    { tr with playWavCalls := tr.playWavCalls + 1, call := { tr.call with wav_player := some 2 } }
  exact ⟨by simp only [h1], by simp only [h2]⟩

/-- The tail of the guarded region after the silence phase falls through:
it performs exactly one playback start on top of the incoming trace. -/
theorem after_silence_playback (env : CallEnv) (p : CallParams) (call_start : ℚ)
    (tr : CallTrace) :
    (after_silence env p call_start tr).2.playWavCalls = tr.playWavCalls + 1 := by
  unfold after_silence phase_result
  dsimp only
  obtain ⟨hpw, hlcr⟩ := phase_post_hangup_preserves env p (phase_playback env p tr)
  calc (bumpTime (phase_post_hangup env p (phase_playback env p tr))).playWavCalls
      = (phase_post_hangup env p (phase_playback env p tr)).playWavCalls := rfl
    _ = (phase_playback env p tr).playWavCalls := hpw
    _ = tr.playWavCalls + 1 := (phase_playback_spec env p tr).1


/-- The sil-phase trace fields of the phase output agree with the trace
produced by `sil_run` on the entered trace. -/
theorem phase_silence_out_fields (env : CallEnv) (p : CallParams) (cs : ℚ) (tr0 : CallTrace)
    (hc : 0 < p.wait_for_silence ∧ tr0.call.audio_media ≠ none) :
    (phase_out_trace (phase_silence env p cs tr0)).silEntered =
      (sil_run env p { tr0 with silEntered := true, silTimeout := sil_window p }).silEntered ∧
    (phase_out_trace (phase_silence env p cs tr0)).silTimeout =
      (sil_run env p { tr0 with silEntered := true, silTimeout := sil_window p }).silTimeout ∧
    (phase_out_trace (phase_silence env p cs tr0)).detectorAttached =
      (sil_run env p
        { tr0 with silEntered := true, silTimeout := sil_window p }).detectorAttached ∧
    (phase_out_trace (phase_silence env p cs tr0)).detectorDetached =
      (sil_run env p
        { tr0 with silEntered := true, silTimeout := sil_window p }).detectorDetached ∧
    (phase_out_trace (phase_silence env p cs tr0)).silElapsed =
      (sil_run env p { tr0 with silEntered := true, silTimeout := sil_window p }).silElapsed ∧
    (phase_out_trace (phase_silence env p cs tr0)).silExit =
      (sil_run env p { tr0 with silEntered := true, silTimeout := sil_window p }).silExit := by
  unfold phase_silence
  rw [if_pos hc]
  dsimp only
  split
  · exact ⟨rfl, rfl, rfl, rfl, rfl, rfl⟩
  · exact ⟨rfl, rfl, rfl, rfl, rfl, rfl⟩

/-- `sil_run` keeps the entry fields of the trace. -/
theorem sil_run_keeps (env : CallEnv) (p : CallParams) (t : CallTrace) :
    (sil_run env p t).silEntered = t.silEntered ∧
    (sil_run env p t).silTimeout = t.silTimeout := by
  unfold sil_run
  split
  · exact ⟨rfl, rfl⟩
  · exact ⟨rfl, rfl⟩

/-- When the attach succeeds, `sil_run` attaches and detaches the detector
and records the loop's elapsed time and exit kind. -/
theorem sil_run_attach (env : CallEnv) (p : CallParams) (t : CallTrace)
    (hAtt : env.silenceAttachOk = true) :
    (sil_run env p t).detectorAttached = true ∧
    (sil_run env p t).detectorDetached = true ∧
    (sil_run env p t).silElapsed =
      (silence_wait_loop env.silence (fun i => env.disc (t.discReads + i))
        (sil_window p) (sil_fuel (sil_window p)) 0 0).elapsed ∧
    (sil_run env p t).silExit =
      some (silence_wait_loop env.silence (fun i => env.disc (t.discReads + i))
        (sil_window p) (sil_fuel (sil_window p)) 0 0).exitKind := by
  unfold sil_run
  rw [hAtt]
  exact ⟨rfl, rfl, rfl, rfl⟩

/-- C5: the silence-wait phase of `make_call` is bounded: the loop runs
inside the window `min(wait_for_silence + 10, timeout)`, never exhausts
the fuel `make_call` supplies (it cannot block indefinitely), exits
exactly on the detector trigger, an observed disconnect, or the window
elapsing — whichever comes first — the detector is detached afterwards,
and when the phase falls through (no disconnect observed after the loop)
the playback tail starts playback. -/
theorem C5_silence_wait_bounded :
    (∀ (sil dsc : ℕ → Bool) (tmo : ℚ), 0 ≤ tmo →
      (silence_wait_loop sil dsc tmo (sil_fuel tmo) 0 0).exitKind ≠ SilExit.stuck ∧
      (silence_wait_loop sil dsc tmo (sil_fuel tmo) 0 0).elapsed ≤ tmo ∧
      ((silence_wait_loop sil dsc tmo (sil_fuel tmo) 0 0).exitKind = SilExit.silence →
        sil (silence_wait_loop sil dsc tmo (sil_fuel tmo) 0 0).iters = true) ∧
      ((silence_wait_loop sil dsc tmo (sil_fuel tmo) 0 0).exitKind = SilExit.disconnected →
        sil (silence_wait_loop sil dsc tmo (sil_fuel tmo) 0 0).iters = false ∧
        dsc (silence_wait_loop sil dsc tmo (sil_fuel tmo) 0 0).iters = true) ∧
      ((silence_wait_loop sil dsc tmo (sil_fuel tmo) 0 0).exitKind = SilExit.timedOut →
        sil (silence_wait_loop sil dsc tmo (sil_fuel tmo) 0 0).iters = false ∧
        dsc (silence_wait_loop sil dsc tmo (sil_fuel tmo) 0 0).iters = false ∧
        tmo - (silence_wait_loop sil dsc tmo (sil_fuel tmo) 0 0).elapsed ≤ 0) ∧
      (∀ m, m < (silence_wait_loop sil dsc tmo (sil_fuel tmo) 0 0).iters →
        sil m = false ∧ dsc m = false)) ∧
    (∀ (env : CallEnv) (p : CallParams) (cs : ℚ) (tr : CallTrace),
      0 < p.wait_for_silence → tr.call.audio_media ≠ none →
      env.silenceAttachOk = true → 0 ≤ p.timeout →
      (phase_out_trace (phase_silence env p cs tr)).silEntered = true ∧
      (phase_out_trace (phase_silence env p cs tr)).silTimeout =
        min (p.wait_for_silence + 10) p.timeout ∧
      (phase_out_trace (phase_silence env p cs tr)).detectorAttached = true ∧
      (phase_out_trace (phase_silence env p cs tr)).detectorDetached = true ∧
      (phase_out_trace (phase_silence env p cs tr)).silElapsed ≤
        (phase_out_trace (phase_silence env p cs tr)).silTimeout ∧
      (phase_out_trace (phase_silence env p cs tr)).silExit ≠ some SilExit.stuck) ∧
    (∀ (env : CallEnv) (p : CallParams) (cs : ℚ) (tr tr1 : CallTrace),
      0 < p.wait_for_silence ∧ tr.call.audio_media ≠ none →
      phase_silence env p cs tr = Except.ok tr1 → tr1.silPostDisc = some false) ∧
    (∀ (env : CallEnv) (p : CallParams) (cs : ℚ) (tr tr1 tr2 tr3 tr4 : CallTrace),
      phase_answer env cs tr = Except.ok tr1 →
      phase_media env cs tr1 = Except.ok tr2 →
      phase_pre_delay env p cs tr2 = Except.ok tr3 →
      phase_silence env p cs tr3 = Except.ok tr4 →
      make_call_try_body env p cs tr = after_silence env p cs tr4) ∧
    (∀ (env : CallEnv) (p : CallParams) (cs : ℚ) (tr : CallTrace),
      (after_silence env p cs tr).2.playWavCalls = tr.playWavCalls + 1) := by
  refine ⟨?_, ?_, ?_, ?_, after_silence_playback⟩
  · intro sil dsc tmo h0
    obtain ⟨hs, hd, ht, hm⟩ := silence_wait_loop_exit_spec sil dsc tmo (sil_fuel tmo) 0 0
    refine ⟨?_, ?_, hs, hd, ht, fun m hlt => hm m (Nat.zero_le m) hlt⟩
    · apply silence_wait_loop_no_stuck
      rw [sub_zero]
      exact Nat.lt_succ_self _
    · exact silence_wait_loop_elapsed_le sil dsc tmo (sil_fuel tmo) 0 0 h0
  · intro env p cs tr hw hm hAtt h0
    obtain ⟨f1, f2, f3, f4, f5, f6⟩ := phase_silence_out_fields env p cs tr ⟨hw, hm⟩
    obtain ⟨k1, k2⟩ := sil_run_keeps env p
      { tr with silEntered := true, silTimeout := sil_window p }
    obtain ⟨a1, a2, a3, a4⟩ := sil_run_attach env p
      { tr with silEntered := true, silTimeout := sil_window p } hAtt
    have hwin : (0 : ℚ) ≤ sil_window p := le_min (by linarith) h0
    refine ⟨?_, ?_, ?_, ?_, ?_, ?_⟩
    · rw [f1, k1]
    · rw [f2, k2]
      rfl
    · rw [f3, a1]
    · rw [f4, a2]
    · rw [f5, f2, k2, a3]
      exact silence_wait_loop_elapsed_le _ _ _ _ 0 0 hwin
    · rw [f6, a4]
      intro hcontra
      exact silence_wait_loop_no_stuck _ _ _ _ 0 0
        (by rw [sub_zero]; exact Nat.lt_succ_self _) (Option.some.inj hcontra)
  · intro env p cs tr tr1 hc hok
    unfold phase_silence at hok
    rw [if_pos hc] at hok
    dsimp only at hok
    split at hok
    · exact absurd hok (by simp)
    · rename_i hd
      rw [Bool.not_eq_true] at hd
      injection hok with hok
      rw [← hok, hd]
  · intro env p cs tr tr1 tr2 tr3 tr4 h1 h2 h3 h4
    unfold make_call_try_body
    simp only [h1, h2, h3, h4]

/-- Detector trigger oracle for the C5 witness: fires from iteration 3. -/
def sil0 : ℕ → Bool := fun k => Nat.ble 3 k

/-- Disconnect oracle for the C5 witness: never set. -/
def dsc0 : ℕ → Bool := fun _ => false

/-- Environment for the C5 witness: answered, media ready, detector fires
at the loop's third check, no disconnect. -/
def env_sil : CallEnv :=
  { accountStarted := true
    wavOk := true
    initiateOk := true
    answered := true
    mediaReady := true
    disc := fun _ => false
    discReason := ("")
    silence := sil0
    silenceAttachOk := true
    recorderActive := false
    time := fun k => (k : ℚ) }

/-- Parameters for the C5 witness: one second of silence requested inside
a five-second call timeout. -/
def p_sil : CallParams :=
  { destination := ("+491234567890")
    transport := ("udp")
    server := ("pbx.example.com")
    port := 5060
    timeout := 5
    pre_delay := 0
    post_delay := 1
    inter_delay := 1
    repeat_count := 2
    wait_for_silence := 1
    wav_duration := 2 }

/-- Trace at the silence phase for the C5 witness: media already
published. -/
def tr_sil : CallTrace :=
  { initTrace with call := { initCall with audio_media := some 0 } }

/-- Witness for C5 at a concrete window of 5 s: the loop exits properly
within the bound, the phase window evaluates to `min(1 + 10, 5) = 5`, and
the playback tail starts playback once. -/
theorem C5_silence_wait_bounded_witness :
    (silence_wait_loop sil0 dsc0 5 (sil_fuel 5) 0 0).exitKind ≠ SilExit.stuck ∧
    (silence_wait_loop sil0 dsc0 5 (sil_fuel 5) 0 0).elapsed ≤ 5 ∧
    (phase_out_trace (phase_silence env_sil p_sil 0 tr_sil)).silTimeout = 5 ∧
    (phase_out_trace (phase_silence env_sil p_sil 0 tr_sil)).silElapsed ≤ 5 ∧
    (after_silence env_sil p_sil 0 tr_sil).2.playWavCalls = tr_sil.playWavCalls + 1 := by
  obtain ⟨h1, h2, -, -, -, -⟩ := C5_silence_wait_bounded.1 sil0 dsc0 5 (by norm_num)
  obtain ⟨-, g2, -, -, g5, -⟩ := C5_silence_wait_bounded.2.1 env_sil p_sil 0 tr_sil
    (by norm_num [p_sil]) (by decide) rfl (by norm_num [p_sil])
  have hval : min (p_sil.wait_for_silence + 10) p_sil.timeout = 5 := by
    norm_num [p_sil]
  refine ⟨h1, h2, ?_, ?_, C5_silence_wait_bounded.2.2.2.2 env_sil p_sil 0 tr_sil⟩
  · rw [g2, hval]
  · calc (phase_out_trace (phase_silence env_sil p_sil 0 tr_sil)).silElapsed
        ≤ (phase_out_trace (phase_silence env_sil p_sil 0 tr_sil)).silTimeout := g5
      _ = 5 := by rw [g2, hval]

/-- When the cleanup's read finds the session disconnected, it only
consumes the read. -/
theorem finally_cleanup_true (env : CallEnv) (tr : CallTrace)
    (h : discNow env tr = true) : finally_cleanup env tr = bumpDisc tr := by
  unfold finally_cleanup
  rw [h]
  rfl

/-- When the cleanup's read finds the session still connected, it issues
the failsafe hangup. -/
theorem finally_cleanup_false (env : CallEnv) (tr : CallTrace)
    (h : discNow env tr = false) :
    finally_cleanup env tr = attemptHangup (bumpDisc tr) := by
  unfold finally_cleanup
  rw [h]
  rfl

/-- The cleanup never touches the stored result. -/
theorem finally_cleanup_lcr (env : CallEnv) (tr : CallTrace) :
    (finally_cleanup env tr).last_call_result = tr.last_call_result := by
  unfold finally_cleanup
  dsimp only
  split <;> simp

/-- The cleanup never touches the playback counter. -/
theorem finally_cleanup_playWavCalls (env : CallEnv) (tr : CallTrace) :
    (finally_cleanup env tr).playWavCalls = tr.playWavCalls := by
  unfold finally_cleanup
  dsimp only
  split <;> simp

/-- C1: the cleanup block of `make_call` runs on every exit of the guarded
region (the function is the body composed with `finally_cleanup`, whatever
trace the body exits with); whenever its read finds the disconnected event
clear it issues the failsafe hangup, so every initiated invocation ends
with a hangup attempted or with the session's disconnected event observed
set at the cleanup's read. -/
theorem C1_failsafe_hangup :
    (∀ (env : CallEnv) (tr : CallTrace), discNow env tr = false →
      (finally_cleanup env tr).hangups = tr.hangups + 1) ∧
    (∀ (env : CallEnv) (tr : CallTrace), discNow env tr = true →
      (finally_cleanup env tr).hangups = tr.hangups) ∧
    (∀ (env : CallEnv) (p : CallParams),
      env.accountStarted = true → env.wavOk = true → env.initiateOk = true →
      1 ≤ (make_call env p).2.hangups ∨
        env.disc ((make_call env p).2.discReads - 1) = true) := by
  refine ⟨?_, ?_, ?_⟩
  · intro env tr h
    rw [finally_cleanup_false env tr h]
    simp
  · intro env tr h
    rw [finally_cleanup_true env tr h]
    simp
  · intro env p ha hw hi
    unfold make_call
    dsimp only
    simp only [ha, hw, hi, Bool.true_eq_false, if_false]
    by_cases hd : discNow env
        (make_call_try_body env p (timeNow env initTrace)
          { bumpTime initTrace with
              dialed_uri := some (build_sip_uri p.transport p.server p.port p.destination) }).2 =
        true
    · right
      rw [finally_cleanup_true _ _ hd]
      simpa [discNow] using hd
    · left
      rw [finally_cleanup_false _ _ (by simpa using hd)]
      simp

/-- Environment where the destination never answers and the disconnected
event is never observed set. -/
def env_na : CallEnv :=
  { env_sil with answered := false, mediaReady := false }

/-- Witness for C1: with no disconnect ever observed, the cleanup adds a
hangup, and the full invocation ends with at least one hangup attempted. -/
theorem C1_failsafe_hangup_witness :
    (finally_cleanup env_na initTrace).hangups = initTrace.hangups + 1 ∧
    (1 ≤ (make_call env_na p_sil).2.hangups ∨
      env_na.disc ((make_call env_na p_sil).2.discReads - 1) = true) :=
  ⟨C1_failsafe_hangup.1 env_na initTrace rfl,
    C1_failsafe_hangup.2.2 env_na p_sil rfl rfl rfl⟩

/-- C3 counterexample: destination never answers, no disconnect is ever
observed — `make_call` returns `False` with a failed, unanswered result,
but hangup is attempted twice (once in the not-answered branch, once by
the failsafe cleanup), not exactly once. -/
theorem C3_hangup_once_counterexample :
    (make_call env_na p_sil).1 = Except.ok false ∧
    Option.map CallResultQ.success (make_call env_na p_sil).2.last_call_result = some false ∧
    Option.map CallResultQ.answered (make_call env_na p_sil).2.last_call_result = some false ∧
    (make_call env_na p_sil).2.hangups = 2 :=
  ⟨rfl, rfl, rfl, rfl⟩

/-- C3 amended: whenever the destination never answers within the timeout
and no disconnect is ever observed, `make_call` returns `False`, stores a
`CallResult` with `success = false` and `answered = false`, and hangup is
attempted exactly twice over the whole invocation: once in the
not-answered branch and once more by the failsafe cleanup block, which
still sees the disconnected event clear. -/
theorem C3_unanswered_hangups_amended (env : CallEnv) (p : CallParams)
    (ha : env.accountStarted = true) (hw : env.wavOk = true) (hi : env.initiateOk = true)
    (hans : env.answered = false) (hd : ∀ k, env.disc k = false) :
    (make_call env p).1 = Except.ok false ∧
    Option.map CallResultQ.success (make_call env p).2.last_call_result = some false ∧
    Option.map CallResultQ.answered (make_call env p).2.last_call_result = some false ∧
    (make_call env p).2.hangups = 2 := by
  unfold make_call make_call_try_body phase_answer not_answered_return finally_cleanup
  dsimp only
  simp only [ha, hw, hi, Bool.true_eq_false, if_false, hans, Bool.false_eq_true,
    discNow, hd, attemptHangup, bumpDisc, bumpTime]
  exact ⟨by trivial, by trivial, by trivial, by trivial⟩

/-- Witness for C3 amended at the concrete never-answered environment. -/
theorem C3_unanswered_hangups_amended_witness :
    (make_call env_na p_sil).1 = Except.ok false ∧ (make_call env_na p_sil).2.hangups = 2 :=
  ⟨(C3_unanswered_hangups_amended env_na p_sil rfl rfl rfl rfl (fun _ => rfl)).1,
    (C3_unanswered_hangups_amended env_na p_sil rfl rfl rfl rfl (fun _ => rfl)).2.2.2⟩

/-- C7: when the call is answered, media becomes ready, a positive
pre-delay is configured, and the remote party disconnects during the
pre-delay, `make_call` returns `True` immediately with a successful,
answered result whose duration runs from call start to that instant, and
playback is never started. -/
theorem C7_pre_delay_disconnect_success (env : CallEnv) (p : CallParams)
    (ha : env.accountStarted = true) (hw : env.wavOk = true) (hi : env.initiateOk = true)
    (hans : env.answered = true) (hd0 : env.disc 0 = false)
    (hm : env.mediaReady = true) (hp : 0 < p.pre_delay) (hd1 : env.disc 1 = true) :
    (make_call env p).1 = Except.ok true ∧
    (make_call env p).2.last_call_result =
      some (mkResult true (env.time 0) (env.time 1) true env.discReason) ∧
    (make_call env p).2.playWavCalls = 0 := by
  unfold make_call make_call_try_body phase_answer phase_media phase_pre_delay
    finally_cleanup
  dsimp only
  simp only [ha, hw, hi, Bool.true_eq_false, if_false, hans, if_true, discNow, timeNow,
    bumpDisc, bumpTime, initTrace, hm, hd0, hd1, hp, Bool.false_eq_true, zero_add]
  refine ⟨by trivial, ?_, ?_⟩ <;> (split <;> rfl)

/-- Environment for the C7 witness: answered, media ready, disconnect
observed from the second read on (during the pre-delay). -/
def env_pd : CallEnv :=
  { env_sil with disc := fun k => Nat.ble 1 k }

/-- Parameters for the C7 witness: a two-second pre-delay. -/
def p_pd : CallParams :=
  { p_sil with pre_delay := 2, wait_for_silence := 0 }

/-- Witness for C7 at the concrete pre-delay-disconnect environment. -/
theorem C7_pre_delay_disconnect_success_witness :
    (make_call env_pd p_pd).1 = Except.ok true ∧
    (make_call env_pd p_pd).2.last_call_result =
      some (mkResult true (env_pd.time 0) (env_pd.time 1) true env_pd.discReason) ∧
    (make_call env_pd p_pd).2.playWavCalls = 0 :=
  C7_pre_delay_disconnect_success env_pd p_pd rfl rfl rfl rfl rfl rfl (by norm_num [p_pd, p_sil])
    rfl


/-- An early return of the answer phase carries `False` and stores a
result with `success = false`. -/
theorem phase_answer_error_spec (env : CallEnv) (cs : ℚ) (tr : CallTrace)
    (b : Bool) (tr2 : CallTrace) (h : phase_answer env cs tr = Except.error (b, tr2)) :
    Option.map CallResultQ.success tr2.last_call_result = some b := by
  unfold phase_answer not_answered_return at h
  dsimp only at h
  repeat' split at h
  all_goals
    first
      | (injection h
         done)
      | (injection h with h
         rw [Prod.mk.injEq] at h
         obtain ⟨hb, htr⟩ := h
         subst hb
         subst htr
         rfl)

/-- An early return of the media phase carries `False` and stores a
result with `success = false`. -/
theorem phase_media_error_spec (env : CallEnv) (cs : ℚ) (tr : CallTrace)
    (b : Bool) (tr2 : CallTrace) (h : phase_media env cs tr = Except.error (b, tr2)) :
    Option.map CallResultQ.success tr2.last_call_result = some b := by
  unfold phase_media at h
  dsimp only at h
  repeat' split at h
  all_goals
    first
      | (injection h
         done)
      | (injection h with h
         rw [Prod.mk.injEq] at h
         obtain ⟨hb, htr⟩ := h
         subst hb
         subst htr
         rfl)

/-- An early return of the pre-delay phase carries `True` and stores a
result with `success = true`. -/
theorem phase_pre_delay_error_spec (env : CallEnv) (p : CallParams) (cs : ℚ) (tr : CallTrace)
    (b : Bool) (tr2 : CallTrace) (h : phase_pre_delay env p cs tr = Except.error (b, tr2)) :
    Option.map CallResultQ.success tr2.last_call_result = some b := by
  unfold phase_pre_delay at h
  dsimp only at h
  repeat' split at h
  all_goals
    first
      | (injection h
         done)
      | (injection h with h
         rw [Prod.mk.injEq] at h
         obtain ⟨hb, htr⟩ := h
         subst hb
         subst htr
         rfl)

/-- An early return of the silence phase carries `True` and stores a
result with `success = true`. -/
theorem phase_silence_error_spec (env : CallEnv) (p : CallParams) (cs : ℚ) (tr : CallTrace)
    (b : Bool) (tr2 : CallTrace) (h : phase_silence env p cs tr = Except.error (b, tr2)) :
    Option.map CallResultQ.success tr2.last_call_result = some b := by
  unfold phase_silence at h
  dsimp only at h
  repeat' split at h
  all_goals
    first
      | (injection h
         done)
      | (injection h with h
         rw [Prod.mk.injEq] at h
         obtain ⟨hb, htr⟩ := h
         subst hb
         subst htr
         rfl)

/-- The trailing phases return `True` and store a result with
`success = true`. -/
theorem after_silence_result (env : CallEnv) (p : CallParams) (cs : ℚ) (tr : CallTrace) :
    (after_silence env p cs tr).1 = true ∧
    Option.map CallResultQ.success (after_silence env p cs tr).2.last_call_result =
      some true := by
  unfold after_silence phase_result
  dsimp only
  exact ⟨rfl, rfl⟩

/-- On every path through the guarded body, the stored result's `success`
equals the returned boolean. -/
theorem make_call_try_body_result (env : CallEnv) (p : CallParams) (cs : ℚ) (tr : CallTrace) :
    Option.map CallResultQ.success (make_call_try_body env p cs tr).2.last_call_result =
      some (make_call_try_body env p cs tr).1 := by
  unfold make_call_try_body
  cases h1 : phase_answer env cs tr with
  | error out =>
      obtain ⟨b, tr2⟩ := out
      simp only [h1]
      exact phase_answer_error_spec env cs tr b tr2 h1
  | ok tr1 =>
    cases h2 : phase_media env cs tr1 with
    | error out =>
        obtain ⟨b, tr2⟩ := out
        simp only [h1, h2]
        exact phase_media_error_spec env cs tr1 b tr2 h2
    | ok tr2 =>
      cases h3 : phase_pre_delay env p cs tr2 with
      | error out =>
          obtain ⟨b, tr3⟩ := out
          simp only [h1, h2, h3]
          exact phase_pre_delay_error_spec env p cs tr2 b tr3 h3
      | ok tr3 =>
        cases h4 : phase_silence env p cs tr3 with
        | error out =>
            obtain ⟨b, tr4⟩ := out
            simp only [h1, h2, h3, h4]
            exact phase_silence_error_spec env p cs tr3 b tr4 h4
        | ok tr4 =>
            obtain ⟨g1, g2⟩ := after_silence_result env p cs tr4
            simp only [h1, h2, h3, h4, g1, g2]

/-- C10: whenever `make_call` returns normally, `last_call_result` holds a
result whose `success` field equals the returned boolean; whenever it
raises (not started, unreadable WAV asset, failed initiation — all before
the guarded region), `last_call_result` is still the `None` it was reset
to at entry. -/
theorem C10_last_call_result_consistency (env : CallEnv) (p : CallParams) :
    (∀ b, (make_call env p).1 = Except.ok b →
      Option.map CallResultQ.success (make_call env p).2.last_call_result = some b) ∧
    (∀ e, (make_call env p).1 = Except.error e →
      (make_call env p).2.last_call_result = none) := by
  unfold make_call
  dsimp only
  by_cases ha : env.accountStarted = false
  · simp only [ha, eq_self_iff_true, if_true]
    exact ⟨fun b hb => absurd hb (by simp), fun e he => rfl⟩
  · rw [Bool.not_eq_false] at ha
    simp only [ha, Bool.true_eq_false, if_false]
    by_cases hw : env.wavOk = false
    · simp only [hw, eq_self_iff_true, if_true]
      exact ⟨fun b hb => absurd hb (by simp), fun e he => rfl⟩
    · rw [Bool.not_eq_false] at hw
      simp only [hw, Bool.true_eq_false, if_false]
      by_cases hi : env.initiateOk = false
      · simp only [hi, eq_self_iff_true, if_true]
        exact ⟨fun b hb => absurd hb (by simp), fun e he => rfl⟩
      · rw [Bool.not_eq_false] at hi
        simp only [hi, Bool.true_eq_false, if_false]
        constructor
        · intro b hb
          rw [finally_cleanup_lcr]
          have hres := make_call_try_body_result env p (timeNow env initTrace)
            { bumpTime initTrace with
                dialed_uri := some (build_sip_uri p.transport p.server p.port p.destination) }
          have hb2 : (make_call_try_body env p (timeNow env initTrace)
              { bumpTime initTrace with
                  dialed_uri :=
                    some (build_sip_uri p.transport p.server p.port p.destination) }).1 = b := by
            injection hb
          rw [hres, hb2]
        · intro e he
          exact absurd he (by simp)

/-- Environment for the C10 raising branch: the caller was never
started. -/
def env_err : CallEnv :=
  { env_sil with accountStarted := false }

/-- Witness for C10: a normal return stores a matching `success`, and a
raised `SipCallError` leaves `last_call_result` cleared. -/
theorem C10_last_call_result_consistency_witness :
    Option.map CallResultQ.success (make_call env_na p_sil).2.last_call_result = some false ∧
    (make_call env_err p_sil).2.last_call_result = none :=
  ⟨(C10_last_call_result_consistency env_na p_sil).1 false rfl,
    (C10_last_call_result_consistency env_err p_sil).2 SipErr.notStarted rfl⟩
